import Mathlib

/-!
Shallow embedding of the transx data-migration engine (pkg/transx/transx.go)
and verification of its specification claims.

Go strings are modelled as Lean `String`; Go `int` as `Int`;
`strings.TrimSpace` as `goTrimSpace` (defined below by structural recursion so
that concrete instances evaluate in the kernel). External processes
(rsync, ssh, sh) are modelled as `Invocation` values; whether a spawned
process succeeds is supplied by an environment oracle, so the control flow of
the Go functions around process results can be proved for every possible
outcome of every spawned process.
-/

namespace Transx

/-- Model of Go `strings.TrimSpace`: drop whitespace characters from both ends
of the string. -/
def goTrimSpace (s : String) : String :=
  ⟨((s.data.dropWhile Char.isWhitespace).reverse.dropWhile Char.isWhitespace).reverse⟩

/-- Model of Go `strings.Join(parts, " ")` as used for the ssh option string. -/
def goJoinSpace (parts : List String) : String :=
  String.intercalate " " parts

/-- Helper for `goContains`: does `sub` occur in the character list `s`? -/
def charsContain : List Char → List Char → Bool
  | [], sub => sub.isEmpty
  | c :: cs, sub => sub.isPrefixOf (c :: cs) || charsContain cs sub

/-- Model of Go `strings.Contains(s, sub)`. -/
def goContains (s sub : String) : Bool :=
  charsContain s.data sub.data

/-- Mirrors Go struct `EndpointDetails`: one side of a migration. -/
structure EndpointDetails where
  Username : String
  HostIP : String
  SSHPort : Int
  DataPath : String
  SSHPrivateKeyPath : String
  BackupCmd : String
  RestoreCmd : String
deriving DecidableEq, Repr

/-- Mirrors Go struct `RsyncOption`: rsync flags and SSH connection options. -/
structure RsyncOption where
  Compress : Bool
  Archive : Bool
  Verbose : Bool
  Delete : Bool
  Progress : Bool
  DryRun : Bool
  RsyncPath : String
  Exclude : List String
  Include : List String
  InsecureSkipHostKeyVerification : Bool
deriving DecidableEq, Repr

/-- Mirrors Go struct `DataMigrationModel`: a single migration task. -/
structure DataMigrationModel where
  Source : EndpointDetails
  Destination : EndpointDetails
  RsyncOptions : RsyncOption
deriving DecidableEq, Repr

/-- Go `func (e *EndpointDetails) isRemote() bool`:
`strings.TrimSpace(e.HostIP) != ""`. -/
def EndpointDetails.isRemote (e : EndpointDetails) : Bool :=
  goTrimSpace e.HostIP != ""

/-- Go `func (e *EndpointDetails) getRsyncPath() string`:
`user@host:path` for a remote endpoint with a (trimmed) non-empty username,
`host:path` for a remote endpoint with a blank username, `DataPath` otherwise. -/
def EndpointDetails.getRsyncPath (e : EndpointDetails) : String :=
  if e.isRemote then
    if goTrimSpace e.Username ≠ "" then
      e.Username ++ "@" ++ e.HostIP ++ ":" ++ e.DataPath
    else
      e.HostIP ++ ":" ++ e.DataPath
  else
    e.DataPath

/-- Go `func (task *DataMigrationModel) IsRelayMode() bool`. -/
def DataMigrationModel.IsRelayMode (task : DataMigrationModel) : Bool :=
  task.Source.isRemote && task.Destination.isRemote

/-- The distinct error returns of Go `Validate`, in source order. -/
inductive ValidationError where
  | missingSourcePath
  | missingDestinationPath
  | invalidSourcePort (p : Int)
  | missingSourceHost
  | invalidDestinationPort (p : Int)
  | missingDestinationHost
deriving DecidableEq, Repr

/-- Go `func Validate(task DataMigrationModel) error`; `none` is a nil error.
The nested `if isRemote { if bad { return } ... }` blocks are flattened into
guarded branches in the same order the Go code checks them. -/
def Validate (task : DataMigrationModel) : Option ValidationError :=
  if goTrimSpace task.Source.getRsyncPath = "" ∨ goTrimSpace task.Source.DataPath = "" then
    some ValidationError.missingSourcePath
  else if goTrimSpace task.Destination.getRsyncPath = "" ∨ goTrimSpace task.Destination.DataPath = "" then
    some ValidationError.missingDestinationPath
  else if task.Source.isRemote = true ∧ task.Source.SSHPort ≠ 0 ∧
      (task.Source.SSHPort < 1 ∨ task.Source.SSHPort > 65535) then
    some (ValidationError.invalidSourcePort task.Source.SSHPort)
  else if task.Source.isRemote = true ∧ goTrimSpace task.Source.HostIP = "" then
    some ValidationError.missingSourceHost
  else if task.Destination.isRemote = true ∧ task.Destination.SSHPort ≠ 0 ∧
      (task.Destination.SSHPort < 1 ∨ task.Destination.SSHPort > 65535) then
    some (ValidationError.invalidDestinationPort task.Destination.SSHPort)
  else if task.Destination.isRemote = true ∧ goTrimSpace task.Destination.HostIP = "" then
    some ValidationError.missingDestinationHost
  else
    none

/-- The error returns of Go `executeCommand` before any process is spawned. -/
inductive ExecError where
  | emptyCommand
  | missingHost
deriving DecidableEq, Repr

/-- One spawned external process: the program and its argument vector, as
passed to Go `exec.Command(prog, args...)`. -/
structure Invocation where
  prog : String
  args : List String
deriving DecidableEq, Repr

/-- Go `func executeCommand(commandToExecute string, endpoint EndpointDetails,
sshConfig RsyncOption) ([]byte, error)`, modelled up to the process spawn:
`.ok inv` means the function spawns exactly the process `inv` (its combined
output and exit status come from the environment), `.error e` means it
returns the error `e` without spawning anything. The ssh argument vector is
built by the same sequence of conditional appends as the Go code, starting
from `"ssh"`, which becomes the program of the invocation. -/
def executeCommand (commandToExecute : String) (endpoint : EndpointDetails)
    (sshConfig : RsyncOption) : Except ExecError Invocation :=
  if goTrimSpace commandToExecute = "" then
    Except.error ExecError.emptyCommand
  else if endpoint.isRemote then
    if goTrimSpace endpoint.HostIP = "" then
      Except.error ExecError.missingHost
    else
      let userHost :=
        if goTrimSpace endpoint.Username ≠ "" then
          endpoint.Username ++ "@" ++ endpoint.HostIP
        else
          endpoint.HostIP
      let sshArgs : List String :=
        (if goTrimSpace endpoint.SSHPrivateKeyPath ≠ "" then
          ["-i", endpoint.SSHPrivateKeyPath] else [])
        ++ (if endpoint.SSHPort ≠ 0 then ["-p", toString endpoint.SSHPort] else [])
        ++ (if sshConfig.InsecureSkipHostKeyVerification then
          ["-o", "StrictHostKeyChecking=accept-new", "-o", "UserKnownHostsFile=/dev/null"]
          else [])
        ++ ["-o", "ConnectTimeout=30"]
        ++ (if goContains commandToExecute "sudo" then ["-t"] else [])
        ++ [userHost, commandToExecute]
      Except.ok (Invocation.mk "ssh" sshArgs)
  else
    Except.ok (Invocation.mk "sh" ["-c", commandToExecute])

/-- The rsync program path chosen by Go `Transfer`: the configured
`RsyncPath`, or `"rsync"` from the system PATH when it is the empty string. -/
def rsyncProgOf (opts : RsyncOption) : String :=
  if opts.RsyncPath = "" then "rsync" else opts.RsyncPath

/-- The rsync flag list built by Go `Transfer` from `RsyncOptions`, in the
order the code appends them: `-a`, `-z`, `-v`, `--delete`, `--progress`,
`-n`, then one `--exclude=`/`--include=` argument per non-blank pattern. -/
def rsyncFlagArgs (opts : RsyncOption) : List String :=
  (if opts.Archive then ["-a"] else [])
  ++ (if opts.Compress then ["-z"] else [])
  ++ (if opts.Verbose then ["-v"] else [])
  ++ (if opts.Delete then ["--delete"] else [])
  ++ (if opts.Progress then ["--progress"] else [])
  ++ (if opts.DryRun then ["-n"] else [])
  ++ (opts.Exclude.filter (fun ex => goTrimSpace ex ≠ "")).map
    (fun ex => "--exclude=" ++ ex)
  ++ (opts.Include.filter (fun inc => goTrimSpace inc ≠ "")).map
    (fun inc => "--include=" ++ inc)

/-- The ssh option string Go `Transfer` builds for one remote endpoint (the
body of the `operationInvolvesRemoteRsync && SSHPrivateKeyPath != ""` block):
`"ssh"` plus key, port and host-key-relaxation parts joined by spaces, or
`""` when the endpoint's key path is the empty string. -/
def sshHookFor (e : EndpointDetails) (insecure : Bool) : String :=
  if e.SSHPrivateKeyPath ≠ "" then
    goJoinSpace (["ssh"]
      ++ (if goTrimSpace e.SSHPrivateKeyPath ≠ "" then ["-i", e.SSHPrivateKeyPath] else [])
      ++ (if e.SSHPort ≠ 0 then ["-p", toString e.SSHPort] else [])
      ++ (if insecure then
        ["-o", "StrictHostKeyChecking=accept-new", "-o", "UserKnownHostsFile=/dev/null"]
        else []))
  else ""

/-- The `sshOptString` value of Go `Transfer`: built from the source's SSH
settings when the source is remote, else from the destination's when the
destination is remote, else left empty. -/
def transferHook (task : DataMigrationModel) : String :=
  if task.Source.isRemote then
    sshHookFor task.Source task.RsyncOptions.InsecureSkipHostKeyVerification
  else if task.Destination.isRemote then
    sshHookFor task.Destination task.RsyncOptions.InsecureSkipHostKeyVerification
  else ""

/-- The full `args` slice of Go `Transfer` before the positional source and
destination paths: the flag list, then `-e <sshOptString>` when the option
string is non-empty. -/
def transferBaseArgs (task : DataMigrationModel) : List String :=
  rsyncFlagArgs task.RsyncOptions
  ++ (if transferHook task ≠ "" then ["-e", transferHook task] else [])

/-- The environment a `Transfer` run interacts with: the unique name
`os.MkdirTemp` would return, whether that creation succeeds, and whether each
spawned process exits successfully. -/
structure TransferEnv where
  tempDir : String
  mkdirOk : Bool
  runOk : Invocation → Bool

/-- The observable effect of one Go `Transfer` call: the rsync processes it
spawned in order, whether `os.RemoveAll(tempDir)` ran (the deferred cleanup),
and whether the call returned a nil error. -/
structure TransferResult where
  invocations : List Invocation
  removedTemp : Bool
  ok : Bool
deriving DecidableEq, Repr

/-- Go `func Transfer(task DataMigrationModel) error`, modelled as the trace
of processes it spawns under environment `env`. Validation failure spawns
nothing; relay mode (both endpoints remote) downloads from the source into
the staging directory and uploads from it to the destination, with the
deferred `os.RemoveAll` marking `removedTemp` on every path after a
successful `MkdirTemp`; direct mode runs rsync once. -/
def Transfer (task : DataMigrationModel) (env : TransferEnv) : TransferResult :=
  if Validate task = none then
    let prog := rsyncProgOf task.RsyncOptions
    let args := transferBaseArgs task
    let src := task.Source.getRsyncPath
    let dst := task.Destination.getRsyncPath
    if task.IsRelayMode then
      if env.mkdirOk then
        let download := Invocation.mk prog (args ++ [src, env.tempDir ++ "/"])
        if env.runOk download then
          let upload := Invocation.mk prog (args ++ [env.tempDir ++ "/", dst])
          TransferResult.mk [download, upload] true (env.runOk upload)
        else
          TransferResult.mk [download] true false
      else
        TransferResult.mk [] false false
    else
      let inv := Invocation.mk prog (args ++ [src, dst])
      TransferResult.mk [inv] false (env.runOk inv)
  else
    TransferResult.mk [] false false

/-- Go `func Backup(dmm DataMigrationModel) error`: fails without spawning
when the source's backup command is blank, otherwise runs the command through
`executeCommand` on the source endpoint; the pair is the list of spawned
processes and whether the call returned a nil error. -/
def Backup (dmm : DataMigrationModel) (runOk : Invocation → Bool) :
    List Invocation × Bool :=
  if goTrimSpace dmm.Source.BackupCmd = "" then
    ([], false)
  else
    match executeCommand dmm.Source.BackupCmd dmm.Source dmm.RsyncOptions with
    | Except.error _ => ([], false)
    | Except.ok inv => ([inv], runOk inv)

/-- Go `func Restore(dmm DataMigrationModel) error`: fails without spawning
when the destination's restore command is blank, otherwise runs the command
through `executeCommand` on the destination endpoint. -/
def Restore (dmm : DataMigrationModel) (runOk : Invocation → Bool) :
    List Invocation × Bool :=
  if goTrimSpace dmm.Destination.RestoreCmd = "" then
    ([], false)
  else
    match executeCommand dmm.Destination.RestoreCmd dmm.Destination dmm.RsyncOptions with
    | Except.error _ => ([], false)
    | Except.ok inv => ([inv], runOk inv)

/-- The three phases of the migration workflow. -/
inductive Phase where
  | backup
  | transfer
  | restore
deriving DecidableEq, Repr

/-- The observable effect of one Go `MigrateData` call: the phases it entered
in order, the processes spawned across them in order, and whether it returned
a nil error. -/
structure MigrateResult where
  phases : List Phase
  invocations : List Invocation
  ok : Bool
deriving DecidableEq, Repr

/-- Steps 2 and 3 of Go `MigrateData`: always attempt the transfer, then run
the restore when the destination's restore command is non-blank; `ph` and
`iv` are the phase and process traces accumulated by step 1. -/
def migrateTail (dmm : DataMigrationModel) (env : TransferEnv)
    (ph : List Phase) (iv : List Invocation) : MigrateResult :=
  let tr := Transfer dmm env
  if tr.ok then
    if goTrimSpace dmm.Destination.RestoreCmd ≠ "" then
      let r := Restore dmm env.runOk
      MigrateResult.mk (ph ++ [Phase.transfer, Phase.restore])
        (iv ++ tr.invocations ++ r.1) r.2
    else
      MigrateResult.mk (ph ++ [Phase.transfer]) (iv ++ tr.invocations) true
  else
    MigrateResult.mk (ph ++ [Phase.transfer]) (iv ++ tr.invocations) false

/-- Go `func MigrateData(dmm DataMigrationModel) error`: backup when the
source's backup command is non-blank (aborting on failure), then transfer
(aborting on failure), then restore when the destination's restore command
is non-blank. -/
def MigrateData (dmm : DataMigrationModel) (env : TransferEnv) : MigrateResult :=
  if goTrimSpace dmm.Source.BackupCmd ≠ "" then
    let b := Backup dmm env.runOk
    if b.2 then
      migrateTail dmm env [Phase.backup] b.1
    else
      MigrateResult.mk [Phase.backup] b.1 false
  else
    migrateTail dmm env [] []

/-- Helper: unfolding of the remoteness predicate to a propositional form. -/
theorem isRemote_eq_true_iff (e : EndpointDetails) :
    e.isRemote = true ↔ goTrimSpace e.HostIP ≠ "" := by
  simp [EndpointDetails.isRemote]

/-- Helper: the negative form of the remoteness predicate. -/
theorem isRemote_eq_false_iff (e : EndpointDetails) :
    e.isRemote = false ↔ goTrimSpace e.HostIP = "" := by
  simp [EndpointDetails.isRemote]

/-- Claim C3: for every endpoint, `isRemote()` returns true if and only if its
host address is non-empty after trimming whitespace, under any combination of
the other fields; an endpoint with empty trimmed host address is local
regardless of other fields. The universal quantification over the whole record
covers every combination of the other fields. -/
theorem isRemote_spec (e : EndpointDetails) :
    (e.isRemote = true ↔ goTrimSpace e.HostIP ≠ "") ∧
    (goTrimSpace e.HostIP = "" → e.isRemote = false) := by
  constructor
  · exact isRemote_eq_true_iff e
  · intro h
    exact (isRemote_eq_false_iff e).mpr h

/-- Claim C3 witness: evaluated at a concrete endpoint whose host address is
whitespace-only but whose every other field is set, applying the claim
theorem. -/
theorem isRemote_spec_witness :
    (EndpointDetails.mk "u" "  " 22 "/d" "/k" "b" "r").isRemote = false :=
  (isRemote_spec (EndpointDetails.mk "u" "  " 22 "/d" "/k" "b" "r")).2 (by decide)

/-- Claim C4: the resolved sync address is the `DataPath` unchanged for a local
endpoint, `user@host:path` for a remote endpoint with a set (trimmed non-empty)
username, and `host:path` for a remote endpoint with an empty username. -/
theorem getRsyncPath_spec (e : EndpointDetails) :
    (e.isRemote = false → e.getRsyncPath = e.DataPath) ∧
    (e.isRemote = true → goTrimSpace e.Username ≠ "" →
      e.getRsyncPath = e.Username ++ "@" ++ e.HostIP ++ ":" ++ e.DataPath) ∧
    (e.isRemote = true → goTrimSpace e.Username = "" →
      e.getRsyncPath = e.HostIP ++ ":" ++ e.DataPath) := by
  refine ⟨?_, ?_, ?_⟩
  · intro h
    simp [EndpointDetails.getRsyncPath, h]
  · intro h hu
    simp [EndpointDetails.getRsyncPath, h, hu]
  · intro h hu
    simp [EndpointDetails.getRsyncPath, h, hu]

/-- Claim C4 witness: the three cases evaluated at the spec's concrete
examples, each by applying the claim theorem and discharging its hypotheses. -/
theorem getRsyncPath_spec_witness :
    (EndpointDetails.mk "" "" 0 "/a/b" "" "" "").getRsyncPath = "/a/b" ∧
    (EndpointDetails.mk "u" "h" 0 "/d" "" "" "").getRsyncPath = "u@h:/d" ∧
    (EndpointDetails.mk "" "h" 0 "/d" "" "" "").getRsyncPath = "h:/d" := by
  refine ⟨?_, ?_, ?_⟩
  · exact (getRsyncPath_spec (EndpointDetails.mk "" "" 0 "/a/b" "" "" "")).1 (by decide)
  · exact (getRsyncPath_spec (EndpointDetails.mk "u" "h" 0 "/d" "" "" "")).2.1
      (by decide) (by decide)
  · exact (getRsyncPath_spec (EndpointDetails.mk "" "h" 0 "/d" "" "" "")).2.2
      (by decide) (by decide)

/-- Claim C6: for a non-blank command on a remote endpoint, the secure-shell
invocation is `ssh` followed by, in order: the `-i` key flag exactly when the
key path is set, the `-p` port flag exactly when the port is non-zero, the two
host-key-relaxation options exactly when `InsecureSkipHostKeyVerification` is
set, the fixed `ConnectTimeout=30` option always, the `-t` pseudo-terminal
flag exactly when the command contains `sudo`, then `user@host` (or `host`
when the username is blank), then the command as a single argument. -/
theorem executeCommand_remote_spec (cmd : String) (e : EndpointDetails)
    (cfg : RsyncOption) (hc : goTrimSpace cmd ≠ "") (hr : e.isRemote = true) :
    executeCommand cmd e cfg = Except.ok (Invocation.mk "ssh"
      ((if goTrimSpace e.SSHPrivateKeyPath ≠ "" then ["-i", e.SSHPrivateKeyPath] else [])
       ++ (if e.SSHPort ≠ 0 then ["-p", toString e.SSHPort] else [])
       ++ (if cfg.InsecureSkipHostKeyVerification then
         ["-o", "StrictHostKeyChecking=accept-new", "-o", "UserKnownHostsFile=/dev/null"]
         else [])
       ++ ["-o", "ConnectTimeout=30"]
       ++ (if goContains cmd "sudo" then ["-t"] else [])
       ++ [(if goTrimSpace e.Username ≠ "" then e.Username ++ "@" ++ e.HostIP
            else e.HostIP), cmd])) := by
  have hh : goTrimSpace e.HostIP ≠ "" := (isRemote_eq_true_iff e).mp hr
  simp [executeCommand, hc, hr, hh]

/-- Claim C6 witness: a concrete remote endpoint with key, port, relaxed
host-key checking and a `sudo` command, evaluated by applying the claim
theorem. -/
theorem executeCommand_remote_spec_witness :
    executeCommand "sudo ls" (EndpointDetails.mk "u" "h" 2222 "/d" "/k" "" "")
        (RsyncOption.mk false false false false false false "" [] [] true) =
      Except.ok (Invocation.mk "ssh"
        ["-i", "/k", "-p", "2222", "-o", "StrictHostKeyChecking=accept-new",
         "-o", "UserKnownHostsFile=/dev/null", "-o", "ConnectTimeout=30", "-t",
         "u@h", "sudo ls"]) := by
  rw [executeCommand_remote_spec "sudo ls" (EndpointDetails.mk "u" "h" 2222 "/d" "/k" "" "")
    (RsyncOption.mk false false false false false false "" [] [] true)
    (by decide) (by decide)]
  exact congrArg Except.ok (by decide)

/-- Claim C7: for every endpoint and every sync-options value, a command that
is blank after trimming fails with the empty-command error, spawning no
process (the model returns no `Invocation`). -/
theorem executeCommand_blank_spec (cmd : String) (e : EndpointDetails)
    (cfg : RsyncOption) (h : goTrimSpace cmd = "") :
    executeCommand cmd e cfg = Except.error ExecError.emptyCommand := by
  simp [executeCommand, h]

/-- Claim C7 witness: a whitespace-only command on a fully populated remote
endpoint, evaluated by applying the claim theorem. -/
theorem executeCommand_blank_spec_witness :
    executeCommand "  " (EndpointDetails.mk "u" "h" 22 "/d" "/k" "b" "r")
        (RsyncOption.mk false false false false false false "" [] [] true) =
      Except.error ExecError.emptyCommand :=
  executeCommand_blank_spec "  " (EndpointDetails.mk "u" "h" 22 "/d" "/k" "b" "r")
    (RsyncOption.mk false false false false false false "" [] [] true) (by decide)

/-- Claim C10: the defensive missing-host branches are dead code: `Validate`
never returns either missing-host error, and `executeCommand` on a remote
endpoint never returns its missing-host error, because remoteness is defined
as the trimmed host address being non-empty. -/
theorem missingHost_unreachable_spec :
    (∀ task : DataMigrationModel,
      Validate task ≠ some ValidationError.missingSourceHost ∧
      Validate task ≠ some ValidationError.missingDestinationHost) ∧
    (∀ (cmd : String) (e : EndpointDetails) (cfg : RsyncOption),
      e.isRemote = true →
      executeCommand cmd e cfg ≠ Except.error ExecError.missingHost) := by
  constructor
  · intro task
    constructor
    · intro h
      simp only [Validate] at h
      split_ifs at h with h1 h2 h3 h4 h5 h6 <;>
        first
          | exact absurd h4.2 ((isRemote_eq_true_iff _).mp h4.1)
          | simp_all
    · intro h
      simp only [Validate] at h
      split_ifs at h with h1 h2 h3 h4 h5 h6 <;>
        first
          | exact absurd h6.2 ((isRemote_eq_true_iff _).mp h6.1)
          | simp_all
  · intro cmd e cfg hr h
    have hh : goTrimSpace e.HostIP ≠ "" := (isRemote_eq_true_iff e).mp hr
    simp only [executeCommand] at h
    split_ifs at h
    simp_all

/-- Claim C10 witness: applying the claim theorem's executeCommand part at a
concrete remote endpoint, and its Validate part at a concrete task. -/
theorem missingHost_unreachable_spec_witness :
    Validate (DataMigrationModel.mk (EndpointDetails.mk "u" "h" 0 "/a" "" "" "")
        (EndpointDetails.mk "" "" 0 "/b" "" "" "")
        (RsyncOption.mk false false false false false false "" [] [] false)) ≠
      some ValidationError.missingSourceHost ∧
    executeCommand "ls" (EndpointDetails.mk "u" "h" 0 "/d" "" "" "")
        (RsyncOption.mk false false false false false false "" [] [] false) ≠
      Except.error ExecError.missingHost :=
  ⟨(missingHost_unreachable_spec.1 (DataMigrationModel.mk
      (EndpointDetails.mk "u" "h" 0 "/a" "" "" "")
      (EndpointDetails.mk "" "" 0 "/b" "" "" "")
      (RsyncOption.mk false false false false false false "" [] [] false))).1,
   missingHost_unreachable_spec.2 "ls" (EndpointDetails.mk "u" "h" 0 "/d" "" "" "")
     (RsyncOption.mk false false false false false false "" [] [] false) (by decide)⟩

/-- A task whose source is local (blank host) yet carries `SSHPort = 70000`:
`Validate` only checks ports of remote endpoints, so this task passes. -/
def localPortTask : DataMigrationModel :=
  DataMigrationModel.mk
    (EndpointDetails.mk "" "" 70000 "/a" "" "" "")
    (EndpointDetails.mk "" "" 0 "/b" "" "" "")
    (RsyncOption.mk false false false false false false "" [] [] false)

/-- Claim C8 counterexample: a local endpoint with `sshPort = 70000` — set and
outside `[1,65535]` — is accepted by `Validate`, so the port bound does not
apply to every endpoint whose port is set, only to remote ones. -/
theorem validate_port_counterexample :
    localPortTask.Source.SSHPort = 70000 ∧
    (localPortTask.Source.SSHPort < 1 ∨ localPortTask.Source.SSHPort > 65535) ∧
    Validate localPortTask = none := by decide

/-- Claim C8 (amended): given that the path checks pass, `Validate` fails with
the invalid-port error on every REMOTE endpoint whose port is set and outside
`[1,65535]` (for the destination, provided the source's port is not itself
bad, since the source is checked first), and accepts `sshPort = 0` on both
endpoints; local endpoints' ports are not checked. -/
theorem validate_port_spec (task : DataMigrationModel)
    (hsp : ¬ (goTrimSpace task.Source.getRsyncPath = "" ∨
      goTrimSpace task.Source.DataPath = ""))
    (hdp : ¬ (goTrimSpace task.Destination.getRsyncPath = "" ∨
      goTrimSpace task.Destination.DataPath = "")) :
    (task.Source.isRemote = true → task.Source.SSHPort ≠ 0 →
      (task.Source.SSHPort < 1 ∨ task.Source.SSHPort > 65535) →
      Validate task = some (ValidationError.invalidSourcePort task.Source.SSHPort)) ∧
    (task.Destination.isRemote = true →
      (task.Source.SSHPort = 0 ∨ (1 ≤ task.Source.SSHPort ∧ task.Source.SSHPort ≤ 65535)) →
      task.Destination.SSHPort ≠ 0 →
      (task.Destination.SSHPort < 1 ∨ task.Destination.SSHPort > 65535) →
      Validate task = some (ValidationError.invalidDestinationPort task.Destination.SSHPort)) ∧
    (task.Source.SSHPort = 0 → task.Destination.SSHPort = 0 →
      Validate task = none) := by
  have hnh4 : ¬ (task.Source.isRemote = true ∧ goTrimSpace task.Source.HostIP = "") :=
    fun hc => absurd hc.2 ((isRemote_eq_true_iff _).mp hc.1)
  have hnh6 : ¬ (task.Destination.isRemote = true ∧
      goTrimSpace task.Destination.HostIP = "") :=
    fun hc => absurd hc.2 ((isRemote_eq_true_iff _).mp hc.1)
  refine ⟨?_, ?_, ?_⟩
  · intro hr hnz hout
    unfold Validate
    rw [if_neg hsp, if_neg hdp, if_pos ⟨hr, hnz, hout⟩]
  · intro hdr hsok hdnz hdout
    have hns : ¬ (task.Source.isRemote = true ∧ task.Source.SSHPort ≠ 0 ∧
        (task.Source.SSHPort < 1 ∨ task.Source.SSHPort > 65535)) := by
      rintro ⟨-, h2, h3⟩
      rcases hsok with h0 | ⟨ha, hb⟩
      · exact h2 h0
      · omega
    unfold Validate
    rw [if_neg hsp, if_neg hdp, if_neg hns, if_neg hnh4, if_pos ⟨hdr, hdnz, hdout⟩]
  · intro hs0 hd0
    have hns : ¬ (task.Source.isRemote = true ∧ task.Source.SSHPort ≠ 0 ∧
        (task.Source.SSHPort < 1 ∨ task.Source.SSHPort > 65535)) := by
      rintro ⟨-, h2, -⟩
      exact h2 hs0
    have hnd : ¬ (task.Destination.isRemote = true ∧ task.Destination.SSHPort ≠ 0 ∧
        (task.Destination.SSHPort < 1 ∨ task.Destination.SSHPort > 65535)) := by
      rintro ⟨-, h2, -⟩
      exact h2 hd0
    unfold Validate
    rw [if_neg hsp, if_neg hdp, if_neg hns, if_neg hnh4, if_neg hnd, if_neg hnh6]

/-- Claim C8 witness: a remote source with port 70000 is rejected with the
invalid-source-port error, by applying the amended claim theorem. -/
theorem validate_port_spec_witness :
    Validate (DataMigrationModel.mk (EndpointDetails.mk "u" "h" 70000 "/a" "" "" "")
        (EndpointDetails.mk "" "" 0 "/b" "" "" "")
        (RsyncOption.mk false false false false false false "" [] [] false)) =
      some (ValidationError.invalidSourcePort 70000) :=
  (validate_port_spec (DataMigrationModel.mk (EndpointDetails.mk "u" "h" 70000 "/a" "" "" "")
      (EndpointDetails.mk "" "" 0 "/b" "" "" "")
      (RsyncOption.mk false false false false false false "" [] [] false))
    (by decide) (by decide)).1 (by decide) (by decide) (by decide)

/-- Claim C1: for a valid relay-mode task whose staging directory creation
succeeds, Transfer spawns the download (source address to staging directory)
followed, when the download succeeds, by the upload (staging directory to
destination address) — exactly two sync-tool invocations — and the deferred
removal of the staging directory runs on every path, in particular also when
the second invocation fails (the conclusion holds for every environment,
including those in which the upload process fails). -/
theorem transfer_relay_spec (task : DataMigrationModel) (env : TransferEnv)
    (hrelay : task.IsRelayMode = true) (hvalid : Validate task = none)
    (hmk : env.mkdirOk = true) :
    (Transfer task env).removedTemp = true ∧
    (env.runOk (Invocation.mk (rsyncProgOf task.RsyncOptions)
        (transferBaseArgs task ++ [task.Source.getRsyncPath, env.tempDir ++ "/"])) = true →
      (Transfer task env).invocations =
        [Invocation.mk (rsyncProgOf task.RsyncOptions)
          (transferBaseArgs task ++ [task.Source.getRsyncPath, env.tempDir ++ "/"]),
         Invocation.mk (rsyncProgOf task.RsyncOptions)
          (transferBaseArgs task ++ [env.tempDir ++ "/", task.Destination.getRsyncPath])]) ∧
    (env.runOk (Invocation.mk (rsyncProgOf task.RsyncOptions)
        (transferBaseArgs task ++ [task.Source.getRsyncPath, env.tempDir ++ "/"])) = false →
      (Transfer task env).invocations =
        [Invocation.mk (rsyncProgOf task.RsyncOptions)
          (transferBaseArgs task ++ [task.Source.getRsyncPath, env.tempDir ++ "/"])]) := by
  refine ⟨?_, ?_, ?_⟩
  · by_cases hdl : env.runOk (Invocation.mk (rsyncProgOf task.RsyncOptions)
      (transferBaseArgs task ++ [task.Source.getRsyncPath, env.tempDir ++ "/"])) = true
    · simp [Transfer, hvalid, hrelay, hmk, hdl]
    · simp [Transfer, hvalid, hrelay, hmk, hdl]
  · intro hdl
    simp [Transfer, hvalid, hrelay, hmk, hdl]
  · intro hdl
    simp [Transfer, hvalid, hrelay, hmk, hdl]

/-- A concrete valid relay task: both endpoints remote. -/
def relayTask : DataMigrationModel :=
  DataMigrationModel.mk
    (EndpointDetails.mk "u1" "h1" 0 "/src" "" "" "")
    (EndpointDetails.mk "u2" "h2" 0 "/dst" "" "" "")
    (RsyncOption.mk false false false false false false "" [] [] false)

/-- An environment in which directory creation and every process succeed. -/
def relayEnv : TransferEnv :=
  TransferEnv.mk "/tmp/relay" true (fun _ => true)

/-- Claim C1 witness: the relay task from the spec's example, evaluated by
applying the claim theorem: two rsync invocations through the staging
directory, and the staging directory is removed. -/
theorem transfer_relay_spec_witness :
    (Transfer relayTask relayEnv).removedTemp = true ∧
    (Transfer relayTask relayEnv).invocations =
      [Invocation.mk "rsync" ["u1@h1:/src", "/tmp/relay/"],
       Invocation.mk "rsync" ["/tmp/relay/", "u2@h2:/dst"]] :=
  ⟨(transfer_relay_spec relayTask relayEnv (by decide) (by decide) (by decide)).1,
   ((transfer_relay_spec relayTask relayEnv (by decide) (by decide) (by decide)).2.1
     (by decide)).trans (by decide)⟩

/-- Claim C5: in direct (non-relay) mode the remote-shell hook option string
is built from the source endpoint's key/port/host-key policy when the source
is remote, else from the destination's when the destination is remote — in
particular, with a local source it depends only on the destination (replacing
the source by any other local endpoint leaves it unchanged) — and when
neither side is remote the option string is empty and no `-e` hook argument
is added; a valid direct task spawns exactly one sync-tool invocation
carrying that hook. -/
theorem transfer_hook_spec (task : DataMigrationModel) (env : TransferEnv)
    (hdirect : task.IsRelayMode = false) :
    (task.Source.isRemote = true →
      transferHook task =
        sshHookFor task.Source task.RsyncOptions.InsecureSkipHostKeyVerification) ∧
    (task.Source.isRemote = false → task.Destination.isRemote = true →
      transferHook task =
        sshHookFor task.Destination task.RsyncOptions.InsecureSkipHostKeyVerification ∧
      (∀ src2 : EndpointDetails, src2.isRemote = false →
        transferHook (DataMigrationModel.mk src2 task.Destination task.RsyncOptions) =
          transferHook task)) ∧
    (task.Source.isRemote = false → task.Destination.isRemote = false →
      transferHook task = "" ∧
      transferBaseArgs task = rsyncFlagArgs task.RsyncOptions) ∧
    (Validate task = none →
      (Transfer task env).invocations =
        [Invocation.mk (rsyncProgOf task.RsyncOptions)
          (rsyncFlagArgs task.RsyncOptions
            ++ (if transferHook task ≠ "" then ["-e", transferHook task] else [])
            ++ [task.Source.getRsyncPath, task.Destination.getRsyncPath])]) := by
  refine ⟨?_, ?_, ?_, ?_⟩
  · intro hs
    simp [transferHook, hs]
  · intro hs hd
    constructor
    · simp [transferHook, hs, hd]
    · intro src2 hs2
      simp [transferHook, hs, hd, hs2]
  · intro hs hd
    constructor
    · simp [transferHook, hs, hd]
    · simp [transferBaseArgs, transferHook, hs, hd]
  · intro hvalid
    simp [Transfer, hvalid, hdirect, transferBaseArgs, List.append_assoc]

/-- A concrete direct task with a local source and a remote destination that
has a key and relaxed host-key checking. -/
def directTask : DataMigrationModel :=
  DataMigrationModel.mk
    (EndpointDetails.mk "" "" 0 "/a" "/srckey" "" "")
    (EndpointDetails.mk "u2" "h2" 0 "/d" "/key" "" "")
    (RsyncOption.mk false false false false false false "" [] [] true)

/-- Claim C5 witness: on `directTask` the hook string carries the
destination's key (not the source's), and the valid task spawns exactly one
rsync invocation with the `-e` hook, by applying the claim theorem. -/
theorem transfer_hook_spec_witness :
    transferHook directTask =
      "ssh -i /key -o StrictHostKeyChecking=accept-new -o UserKnownHostsFile=/dev/null" ∧
    (Transfer directTask relayEnv).invocations =
      [Invocation.mk "rsync"
        ["-e", "ssh -i /key -o StrictHostKeyChecking=accept-new -o UserKnownHostsFile=/dev/null",
         "/a", "u2@h2:/d"]] :=
  ⟨(((transfer_hook_spec directTask relayEnv (by decide)).2.1 (by decide) (by decide)).1).trans
    (by decide),
   ((transfer_hook_spec directTask relayEnv (by decide)).2.2.2 (by decide)).trans (by decide)⟩

/-- Claim C2: on a task whose source backup command is blank, `MigrateData`
never enters the backup phase (so no process is spawned for it), its first
phase is the transfer; when the transfer fails the run stops there with an
error; when it succeeds, the restore phase runs exactly when the destination
restore command is non-blank — giving the strict Backup, Transfer, Restore
order with any phase failure aborting the remainder. -/
theorem migrateData_blank_backup_spec (dmm : DataMigrationModel)
    (env : TransferEnv) (hb : goTrimSpace dmm.Source.BackupCmd = "") :
    (Phase.backup ∉ (MigrateData dmm env).phases) ∧
    ((MigrateData dmm env).phases.head? = some Phase.transfer) ∧
    ((Transfer dmm env).ok = false →
      MigrateData dmm env =
        MigrateResult.mk [Phase.transfer] (Transfer dmm env).invocations false) ∧
    ((Transfer dmm env).ok = true → goTrimSpace dmm.Destination.RestoreCmd = "" →
      MigrateData dmm env =
        MigrateResult.mk [Phase.transfer] (Transfer dmm env).invocations true) ∧
    ((Transfer dmm env).ok = true → goTrimSpace dmm.Destination.RestoreCmd ≠ "" →
      MigrateData dmm env =
        MigrateResult.mk [Phase.transfer, Phase.restore]
          ((Transfer dmm env).invocations ++ (Restore dmm env.runOk).1)
          (Restore dmm env.runOk).2) := by
  have hM : MigrateData dmm env = migrateTail dmm env [] [] := by
    simp [MigrateData, hb]
  refine ⟨?_, ?_, ?_, ?_, ?_⟩
  · rw [hM]
    by_cases hok : (Transfer dmm env).ok = true
    · by_cases hr : goTrimSpace dmm.Destination.RestoreCmd = ""
      · simp [migrateTail, hok, hr]
      · simp [migrateTail, hok, hr]
    · simp [migrateTail, hok]
  · rw [hM]
    by_cases hok : (Transfer dmm env).ok = true
    · by_cases hr : goTrimSpace dmm.Destination.RestoreCmd = ""
      · simp [migrateTail, hok, hr]
      · simp [migrateTail, hok, hr]
    · simp [migrateTail, hok]
  · intro hok
    rw [hM]
    simp [migrateTail, hok]
  · intro hok hr
    rw [hM]
    simp [migrateTail, hok, hr]
  · intro hok hr
    rw [hM]
    simp [migrateTail, hok, hr]

/-- A concrete task with a blank backup command, a set restore command, and
two valid local endpoints. -/
def blankBackupTask : DataMigrationModel :=
  DataMigrationModel.mk
    (EndpointDetails.mk "" "" 0 "/a" "" "" "")
    (EndpointDetails.mk "" "" 0 "/b" "" "" "restore.sh")
    (RsyncOption.mk false false false false false false "" [] [] false)

/-- Claim C2 witness: on `blankBackupTask` under an all-succeeding
environment, applying the claim theorem yields exactly the transfer phase
followed by the restore phase, with their two spawned processes. -/
theorem migrateData_blank_backup_spec_witness :
    MigrateData blankBackupTask relayEnv =
      MigrateResult.mk [Phase.transfer, Phase.restore]
        [Invocation.mk "rsync" ["/a", "/b"], Invocation.mk "sh" ["-c", "restore.sh"]]
        true :=
  ((migrateData_blank_backup_spec blankBackupTask relayEnv (by decide)).2.2.2.2
    (by decide) (by decide)).trans (by decide)

/-- A task whose backup and restore commands are both blank, with two valid
local endpoints. -/
def blankCmdTask : DataMigrationModel :=
  DataMigrationModel.mk
    (EndpointDetails.mk "" "" 0 "/a" "" "" "")
    (EndpointDetails.mk "" "" 0 "/b" "" "" "")
    (RsyncOption.mk false false false false false false "" [] [] false)

/-- Claim C9 counterexample: invoked independently on a blank command,
`Backup` returns an error — `([], false)`: no process spawned and a non-nil
error ("backup command is not defined for source") — not success as the
claim states; `Restore` likewise. -/
theorem backup_blank_counterexample :
    Backup blankCmdTask (fun _ => true) = ([], false) ∧
    Restore blankCmdTask (fun _ => true) = ([], false) := by
  decide

/-- Claim C9 (amended): the independently invoked `Backup` on a blank source
backup command spawns no process but returns a command-not-defined error
rather than success, and likewise `Restore` on a blank destination restore
command; the skip-without-error behaviour exists only inside `MigrateData`,
which does not call the phase at all. -/
theorem backup_restore_blank_spec (dmm : DataMigrationModel)
    (runOk : Invocation → Bool) :
    (goTrimSpace dmm.Source.BackupCmd = "" → Backup dmm runOk = ([], false)) ∧
    (goTrimSpace dmm.Destination.RestoreCmd = "" → Restore dmm runOk = ([], false)) := by
  constructor
  · intro h
    simp [Backup, h]
  · intro h
    simp [Restore, h]

/-- Claim C9 witness: applying the amended claim theorem to the concrete
blank-command task. -/
theorem backup_restore_blank_spec_witness :
    Backup blankCmdTask (fun _ => true) = ([], false) :=
  (backup_restore_blank_spec blankCmdTask (fun _ => true)).1 (by decide)

end Transx
